import Mathlib

/-
Verification of the ClipWise front-end core: the request-orchestration and
response-normalization pipeline in app/page.tsx (Home.handleSubmit), the
submission guard in app/components/UrlInput.tsx, and the per-clip
interaction state in app/components/ClipCard.tsx.

The embedding models JavaScript runtime values with the inductive type
JVal (numbers as rationals; the code performs no arithmetic on them, and
NaN never arises in the modelled paths).  Thrown JavaScript values are
modelled by JsThrown; the platform builtin JSON.parse is a parameter of
the pipeline, since it is a host primitive and not repository code.
-/

set_option autoImplicit false

namespace Clipwise

/-- A JavaScript runtime value, as far as the modelled code observes it. -/
inductive JVal where
  | undefined
  | null
  | bool (b : Bool)
  | num (q : Rat)
  | str (s : String)
  | arr (elems : List JVal)
  | obj (fields : List (String × JVal))

/-- A thrown JavaScript value: whether it is an Error instance, and its
message field (meaningful only when it is an Error). -/
structure JsThrown where
  isError : Bool
  message : String

/-- The catch block of Home.handleSubmit runs
err instanceof Error ? err.message : the fixed fallback text. -/
def errMessage (e : JsThrown) : String :=
  if e.isError then e.message else "An error occurred"

/-- JavaScript truthiness of a value (0, NaN, empty string, null,
undefined and false are falsy; every object and array is truthy). -/
def truthy : JVal → Bool
  | .undefined => false
  | .null => false
  | .bool b => b
  | .num q => if q = 0 then false else true
  | .str s => if s = "" then false else true
  | .arr _ => true
  | .obj _ => true

/-- First binding of a key in an object field list (JavaScript objects
have unique keys, so on real values this is the only binding). -/
def lookupField : List (String × JVal) → String → Option JVal
  | [], _ => none
  | (k, v) :: rest, key => if k = key then some v else lookupField rest key

/-- Property read v.k for the named properties the code accesses
(body, clips, video_id).  Reading a property of null or undefined throws
a TypeError; a missing property on an object yields undefined; named
non-index properties of primitives, arrays and strings that the code
reads are undefined. -/
def getProp : JVal → String → Except JsThrown JVal
  | .undefined, k => .error ⟨true, "Cannot read properties of undefined (reading " ++ k ++ ")"⟩
  | .null, k => .error ⟨true, "Cannot read properties of null (reading " ++ k ++ ")"⟩
  | .obj fs, k => .ok ((lookupField fs k).getD .undefined)
  | _, _ => .ok .undefined

/-- The character of a decimal digit. -/
def digitChar (d : Nat) : Char :=
  if d = 0 then '0' else if d = 1 then '1' else if d = 2 then '2' else if d = 3 then '3'
  else if d = 4 then '4' else if d = 5 then '5' else if d = 6 then '6' else if d = 7 then '7'
  else if d = 8 then '8' else '9'

/-- Decimal digits of a natural number, most significant first; models
the JavaScript number-to-string conversion used for index keys. -/
def natDigits (n : Nat) : List Char :=
  if _h : n < 10 then [digitChar n]
  else natDigits (n / 10) ++ [digitChar (n % 10)]
  decreasing_by exact Nat.div_lt_self (by omega) (by omega)

/-- Index key of an array or string element under object spread. -/
def natKey (n : Nat) : String := String.mk (natDigits n)

/-- Own enumerable string-keyed properties of a value, in enumeration
order: the semantics of object spread.  Objects list their (unique) keys;
arrays and strings expose index keys; primitives, null and undefined
contribute nothing.  dedupKeysAux makes the operation total on the model
type; on real JavaScript objects keys are already unique and it is the
identity. -/
def dedupKeysAux (seen : List String) : List (String × JVal) → List (String × JVal)
  | [] => []
  | (k, v) :: rest =>
    if k ∈ seen then dedupKeysAux seen rest
    else (k, v) :: dedupKeysAux (k :: seen) rest

def spreadFields : JVal → List (String × JVal)
  | .obj fs => dedupKeysAux [] fs
  | .arr xs => (xs.enum.map fun p => (natKey p.1, p.2))
  | .str s => (s.data.enum.map fun p => (natKey p.1, .str (String.mk [p.2])))
  | _ => []

/-- Object-literal override: the spread-and-override expression writes
the value at the existing position of the key, or appends it. -/
def setField : List (String × JVal) → String → JVal → List (String × JVal)
  | [], k, v => [(k, v)]
  | (k0, v0) :: rest, k, v =>
    if k0 = k then (k, v) :: rest else (k0, v0) :: setField rest k v

/-- The sanitization step of Home.handleSubmit:
the spread-and-override object literal that replaces s3_url by undefined. -/
def sanitizeClip (c : JVal) : JVal :=
  .obj (setField (spreadFields c) "s3_url" .undefined)

def isUndefined : JVal → Bool
  | .undefined => true
  | _ => false

/-- Fields surviving JSON.stringify at one level: properties whose value
is undefined are omitted from the serialized debug output. -/
def visibleFields (fs : List (String × JVal)) : List (String × JVal) :=
  fs.filter fun kv => !isUndefined kv.2

def visibleFieldsOf : JVal → List (String × JVal)
  | .obj fs => visibleFields fs
  | _ => []

/-- The call data.clips.map(...) with the sanitizing callback: succeeds
exactly on arrays; reading .map of null or undefined throws a TypeError,
and calling .map on another non-array value throws a TypeError. -/
def callMapSanitize : JVal → Except JsThrown JVal
  | .arr xs => .ok (.arr (xs.map sanitizeClip))
  | .undefined => .error ⟨true, "Cannot read properties of undefined (reading map)"⟩
  | .null => .error ⟨true, "Cannot read properties of null (reading map)"⟩
  | _ => .error ⟨true, "data.clips.map is not a function"⟩

/-- The React state of the Home component relevant to the pipeline.
The url state variable of Home is never written by the modelled code and
is omitted.  debugData starts as null (none). -/
structure HomeState where
  isLoading : Bool
  clips : JVal
  error : String
  videoId : JVal
  debugData : Option JVal

def initialHomeState : HomeState :=
  { isLoading := false, clips := .arr [], error := "", videoId := .str "", debugData := none }

/-- Resolution of the awaited fetch plus response.json(): the promise
rejects, or a response with ok flag arrives and its body decodes to a
JavaScript value or fails. -/
inductive FetchOutcome where
  | reject (e : JsThrown)
  | resolve (ok : Bool) (jsonResult : Except JsThrown JVal)

/-- The synchronous state updates at the top of handleSubmit:
setIsLoading(true), setError(empty), setClips(empty array),
setVideoId(empty string).  debugData is not cleared. -/
def startSubmit (s : HomeState) : HomeState :=
  { s with isLoading := true, error := "", clips := .arr [], videoId := .str "" }

/-- The try block of Home.handleSubmit, threading the partially updated
state so that a throw preserves the setState calls already made.  The
first component is the state at exit, the second the thrown value if
any.  The parse parameter is the platform builtin JSON.parse applied to
the body field.  The console.log lines perform the first reads of
data.clips and data.video_id, before setClips runs, and are modelled by
the getProp calls. -/
def submitBody (parse : JVal → Except JsThrown JVal) (outcome : FetchOutcome)
    (s : HomeState) : HomeState × Option JsThrown :=
  match outcome with
  | .reject e => (s, some e)
  | .resolve ok jsonResult =>
    if ok then
      match jsonResult with
      | .error e => (s, some e)
      | .ok responseData =>
        match getProp responseData "body" with
        | .error e => (s, some e)
        | .ok bodyVal =>
          match (if truthy bodyVal then parse bodyVal else .ok responseData) with
          | .error e => (s, some e)
          | .ok data =>
            match getProp data "clips" with
            | .error e => (s, some e)
            | .ok clipsVal =>
              match getProp data "video_id" with
              | .error e => (s, some e)
              | .ok vidVal =>
                let s := { s with clips := if truthy clipsVal then clipsVal else .arr [] }
                let s := { s with videoId := if truthy vidVal then vidVal else .str "" }
                match callMapSanitize clipsVal with
                | .error e => (s, some e)
                | .ok sanitized => ({ s with debugData := some sanitized }, none)
    else (s, some ⟨true, "Failed to process video"⟩)

/-- Home.handleSubmit: clear state, run the try block, capture any
thrown value into the error state (catch), and clear isLoading
(finally).  The function is total: no exception escapes the boundary. -/
def handleSubmit (parse : JVal → Except JsThrown JVal) (outcome : FetchOutcome)
    (s0 : HomeState) : HomeState :=
  match submitBody parse outcome (startSubmit s0) with
  | (s, some e) => { s with error := errMessage e, isLoading := false }
  | (s, none) => { s with isLoading := false }

/-- Session status as the spec reads it off the Home state: isLoading
renders the Pending view, a non-empty error the Failed view, otherwise
the results (Succeeded) view.  The code keeps no explicit status
variable; Idle is the pre-submission state and is not distinguished from
Succeeded by any state field, so this derived status is used for
post-submission states. -/
inductive SessionStatus where
  | Idle
  | Pending
  | Succeeded
  | Failed
deriving DecidableEq

def sessionStatus (s : HomeState) : SessionStatus :=
  if s.isLoading then .Pending
  else if s.error = "" then .Succeeded
  else .Failed

/-- JavaScript String.prototype.trim over the characters of the string. -/
def jsTrim (s : String) : String :=
  String.mk (((s.data.dropWhile Char.isWhitespace).reverse.dropWhile Char.isWhitespace).reverse)

/-- Strip a literal from the front of the character list, returning the
remainder on success. -/
def dropLit : List Char → List Char → Option (List Char)
  | [], cs => some cs
  | _ :: _, [] => none
  | p :: ps, c :: cs => if c = p then dropLit ps cs else none

/-- The regex dot: any character other than a line terminator. -/
def jsDot (c : Char) : Bool :=
  !(c = '\n') && !(c = '\r') && !(c = '\u2028') && !(c = '\u2029')

/-- After scheme and www, the regex requires youtube.com/ or youtu.be/
followed by at least one dot-matching character. -/
def hostAndPath (cs : List Char) : Bool :=
  (match dropLit "youtube.com/".data cs with
   | some (c :: _) => jsDot c
   | _ => false) ||
  (match dropLit "youtu.be/".data cs with
   | some (c :: _) => jsDot c
   | _ => false)

def afterScheme (cs : List Char) : Bool :=
  hostAndPath cs ||
  (match dropLit "www.".data cs with
   | some rest => hostAndPath rest
   | none => false)

/-- UrlInput.isValidYoutubeUrl: the anchored regex with optional
http:// or https:// scheme, optional www., host youtube.com or youtu.be,
and a non-empty path, tested by existential choice over the optional
groups. -/
def isValidYoutubeUrl (s : String) : Bool :=
  afterScheme s.data ||
  (match dropLit "http://".data s.data with
   | some rest => afterScheme rest
   | none => false) ||
  (match dropLit "https://".data s.data with
   | some rest => afterScheme rest
   | none => false)

/-- UrlInput.handleSubmit: the form handler fires onSubmit with the
trimmed url exactly when the trimmed url is truthy and isLoading is
false. -/
def urlInputHandleSubmit (url : String) (isLoading : Bool) : Option String :=
  if truthy (.str (jsTrim url)) && !isLoading then some (jsTrim url) else none

/-- The disabled condition of the submit button: empty trimmed url,
invalid url, or a submission in flight.  A disabled default button also
blocks implicit form submission, so no submit event is dispatched while
it holds. -/
def submitButtonDisabled (url : String) (isLoading : Bool) : Bool :=
  !truthy (.str (jsTrim url)) || !isValidYoutubeUrl url || isLoading

/-- The inline validation message under the input is rendered when the
url is non-empty and fails validation. -/
def showsInvalidUrlMessage (url : String) : Bool :=
  truthy (.str url) && !isValidYoutubeUrl url

/-- A user submit gesture on the page: blocked by the disabled button,
then filtered by the UrlInput handler guard, then running
Home.handleSubmit.  The second component counts network calls issued. -/
def submitEvent (parse : JVal → Except JsThrown JVal) (outcome : FetchOutcome)
    (url : String) (s : HomeState) : HomeState × Nat :=
  if submitButtonDisabled url s.isLoading then (s, 0)
  else
    match urlInputHandleSubmit url s.isLoading with
    | some _ => (handleSubmit parse outcome s, 1)
    | none => (s, 0)

/-- Per-clip interaction state of ClipCard: loading (download in
flight), showPreview, copied (link-copied flag), liked. -/
structure CardState where
  loading : Bool
  showPreview : Bool
  copied : Bool
  liked : Bool

def initialCardState : CardState :=
  { loading := false, showPreview := false, copied := false, liked := false }

/-- Outcome of the clipboard writeText promise. -/
inductive ClipboardOutcome where
  | success
  | failure (e : JsThrown)

/-- ClipCard.copyUrl: writeText is called without await and without a
rejection handler, so the synchronous continuation setCopied(true) and
the 2000 ms timer run regardless of the clipboard outcome.  Returns the
new state and the scheduled delay in milliseconds. -/
def copyUrl (_outcome : ClipboardOutcome) (s : CardState) : CardState × Nat :=
  ({ s with copied := true }, 2000)

/-- The timer callback scheduled by copyUrl: setCopied(false). -/
def copyTimerFire (s : CardState) : CardState :=
  { s with copied := false }

/-- Outcome of the fetch-and-blob sequence inside handleDownload. -/
inductive DownloadOutcome where
  | success
  | failure (e : JsThrown)

/-- The saved file name: last path segment of the url, query stripped,
with the fixed fallback if empty. -/
def downloadFileName (s3url : String) : String :=
  let last := (s3url.splitOn "/").getLastD ""
  let stem := (last.splitOn "?").headD ""
  if stem = "" then "clip.mp4" else stem

/-- ClipCard.handleDownload: setLoading(true); the try block fetches the
bytes and saves the file (the saved name is returned on success); the
catch block only logs; the finally block runs setLoading(false) on every
path.  Returns the state while in flight, the final state, and the saved
file name if any. -/
def handleDownload (s3url : String) (outcome : DownloadOutcome)
    (s : CardState) : CardState × CardState × Option String :=
  let during := { s with loading := true }
  let saved := match outcome with
    | .success => some (downloadFileName s3url)
    | .failure _ => none
  (during, { during with loading := false }, saved)

/- Concrete values used by counterexamples and witnesses. -/

/-- A well-formed raw clip carrying every field of the wire format. -/
def goodClip : JVal := .obj [("clip_id", .str "c1"), ("s3_url", .str "https://bucket/a.mp4"),
  ("start_time", .num 0), ("end_time", .num 5), ("duration", .num 5),
  ("interest_score", .num 1), ("interest_reasons", .arr []),
  ("transcript_text", .str "t"), ("file_size_formatted", .str "1 MB"),
  ("resolution", .str "720p"), ("expires_at", .null)]

/-- A raw clip lacking the required numeric field start_time. -/
def badClip : JVal := .obj [("clip_id", .str "c2"), ("s3_url", .str "https://bucket/b.mp4"),
  ("end_time", .num 9), ("duration", .num 4)]

/-- A stand-in for the platform JSON.parse on paths where it is not
reached. -/
def idParse : JVal → Except JsThrown JVal := fun v => .ok v

/-- A thrown value is well formed when, if it is an Error instance, its
message is non-empty; every Error the JavaScript runtime throws in the
modelled paths satisfies this. -/
def thrownOk (e : JsThrown) : Prop := e.isError = true → e.message ≠ ""

/-- The environment (fetch, response.json and the JSON.parse builtin)
throws only well-formed values. -/
def envOk (parse : JVal → Except JsThrown JVal) (outcome : FetchOutcome) : Prop :=
  (∀ e, outcome = .reject e → thrownOk e)
  ∧ (∀ ok e, outcome = .resolve ok (.error e) → thrownOk e)
  ∧ (∀ v e, parse v = .error e → thrownOk e)

/-- Remove every binding of a key from a field list. -/
def dropKey (k : String) (fs : List (String × JVal)) : List (String × JVal) :=
  fs.filter fun kv => !(kv.1 == k)

/- Helper lemmas. -/

theorem str_append_ne_empty (a b : String) (ha : a ≠ "") : a ++ b ≠ "" := by
  intro h
  apply ha
  have hd := congrArg String.data h
  simp only [String.data_append] at hd
  rcases List.append_eq_nil.mp hd with ⟨h1, _⟩
  cases a
  simp_all

theorem getProp_error_thrownOk (v : JVal) (k : String) (e : JsThrown)
    (h : getProp v k = .error e) : thrownOk e := by
  cases v <;> simp [getProp] at h <;>
    (subst h; intro _; apply str_append_ne_empty; apply str_append_ne_empty; decide)

theorem callMapSanitize_error_thrownOk (v : JVal) (e : JsThrown)
    (h : callMapSanitize v = .error e) : thrownOk e := by
  cases v <;> simp [callMapSanitize] at h <;> (subst h; intro _; decide)

theorem callMapSanitize_ok (v w : JVal) (h : callMapSanitize v = .ok w) :
    ∃ xs, v = .arr xs ∧ w = .arr (xs.map sanitizeClip) := by
  cases v <;> simp [callMapSanitize] at h
  exact ⟨_, rfl, h.symm⟩

/-- On every throwing path, the try block leaves debugData, error and
isLoading untouched, and the clips state is either untouched, the empty
array, or the truthy non-array value of the decoded clips field stored
just before the failing map call. -/
theorem submitBody_error_state (parse : JVal → Except JsThrown JVal)
    (outcome : FetchOutcome) (s s2 : HomeState) (e : JsThrown)
    (h : submitBody parse outcome s = (s2, some e)) :
    s2.debugData = s.debugData ∧ s2.error = s.error ∧ s2.isLoading = s.isLoading
    ∧ (s2.clips = s.clips ∨ s2.clips = .arr []
       ∨ (truthy s2.clips = true ∧ ∀ xs, s2.clips ≠ .arr xs)) := by
  unfold submitBody at h
  repeat' split at h
  all_goals (try (injection h with h1 h2))
  all_goals (try (cases h2))
  all_goals (try (subst h1; exact ⟨rfl, rfl, rfl, Or.inl rfl⟩))
  all_goals (subst h1)
  all_goals refine ⟨rfl, rfl, rfl, ?_⟩
  all_goals (try (exact Or.inr (Or.inl rfl)))
  all_goals
    (rename_i cv hclips xv vidv hvid hcv hvt xm hmap;
     refine Or.inr (Or.inr ⟨hcv, ?_⟩);
     intro xs hxx;
     cases cv <;> simp_all [callMapSanitize])

/-- Every value the try block can throw is well formed, assuming the
environment only throws well-formed values; the internal throw sites
carry fixed non-empty Error messages. -/
theorem submitBody_error_thrownOk (parse : JVal → Except JsThrown JVal)
    (outcome : FetchOutcome) (s s2 : HomeState) (e : JsThrown)
    (h : submitBody parse outcome s = (s2, some e))
    (hrej : ∀ e0, outcome = .reject e0 → thrownOk e0)
    (hjson : ∀ ok e0, outcome = .resolve ok (.error e0) → thrownOk e0)
    (hparse : ∀ v e0, parse v = .error e0 → thrownOk e0) :
    thrownOk e := by
  unfold submitBody at h
  repeat' split at h
  all_goals (try (injection h with h1 h2))
  all_goals (try (cases h2))
  all_goals (try (exact hrej _ rfl))
  all_goals (try (exact hjson _ _ rfl))
  all_goals (try (exact fun _ => by decide))
  all_goals (try (exact getProp_error_thrownOk _ _ _ (by assumption)))
  all_goals (try (exact callMapSanitize_error_thrownOk _ _ (by assumption)))
  all_goals
    (rename_i bv xm hif;
     split at hif;
     · exact hparse _ _ hif
     · simp at hif)

/-- On every non-throwing run, the decoded clips field was an array,
it is stored as the clips state, and debugData holds its image under
the sanitizing map. -/
theorem submitBody_success_spec (parse : JVal → Except JsThrown JVal)
    (outcome : FetchOutcome) (s s2 : HomeState)
    (h : submitBody parse outcome s = (s2, none)) :
    ∃ xs, s2.clips = .arr xs ∧ s2.debugData = some (.arr (xs.map sanitizeClip)) := by
  unfold submitBody at h
  repeat' split at h
  all_goals (try (injection h with h1 h2))
  all_goals (try (cases h2))
  all_goals (subst h1)
  all_goals rename_i cv hclips xv vidv hvid hcv hvt xm sv hmap
  all_goals (rcases callMapSanitize_ok _ _ hmap with ⟨xs, rfl, rfl⟩)
  all_goals (first | exact ⟨xs, rfl, rfl⟩ | exact absurd rfl hcv)

theorem digitChar_ne_s (d : Nat) : digitChar d ≠ 's' := by
  unfold digitChar
  repeat' split
  all_goals decide

theorem natDigits_head (n : Nat) : ∃ d rest, natDigits n = digitChar d :: rest := by
  induction n using Nat.strong_induction_on with
  | _ n ih =>
    rw [natDigits]
    split
    · exact ⟨n, [], rfl⟩
    · rcases ih (n / 10) (Nat.div_lt_self (by omega) (by omega)) with ⟨d, rest, hr⟩
      exact ⟨d, rest ++ [digitChar (n % 10)], by rw [hr]; simp⟩

theorem natKey_ne_s3url (n : Nat) : natKey n ≠ "s3_url" := by
  unfold natKey
  intro h
  rcases natDigits_head n with ⟨d, rest, hr⟩
  have hd : natDigits n = "s3_url".data := congrArg String.data h
  rw [hr, show "s3_url".data = 's' :: "3_url".data from rfl] at hd
  injection hd with h1 _
  exact digitChar_ne_s d h1

theorem visibleFields_cons_undefined (kv : String × JVal) (rest : List (String × JVal))
    (h : isUndefined kv.2 = true) :
    visibleFields (kv :: rest) = visibleFields rest := by
  simp [visibleFields, List.filter_cons, h]

theorem visibleFields_cons_def (kv : String × JVal) (rest : List (String × JVal))
    (h : isUndefined kv.2 = false) :
    visibleFields (kv :: rest) = kv :: visibleFields rest := by
  simp [visibleFields, List.filter_cons, h]

theorem dropKey_cons_eq (k : String) (kv : String × JVal) (rest : List (String × JVal))
    (h : kv.1 = k) :
    dropKey k (kv :: rest) = dropKey k rest := by
  simp [dropKey, List.filter_cons, h]

theorem dropKey_cons_ne (k : String) (kv : String × JVal) (rest : List (String × JVal))
    (h : kv.1 ≠ k) :
    dropKey k (kv :: rest) = kv :: dropKey k rest := by
  simp [dropKey, List.filter_cons, h]

theorem dropKey_eq_self_of_not_mem (k : String) (l : List (String × JVal))
    (h : k ∉ l.map Prod.fst) : dropKey k l = l := by
  unfold dropKey
  rw [List.filter_eq_self]
  intro kv hkv
  by_cases he : kv.1 = k
  · exact absurd (List.mem_map.mpr ⟨kv, hkv, he⟩) h
  · simp [he]

theorem not_mem_dropKey (k : String) (l : List (String × JVal)) :
    k ∉ (dropKey k l).map Prod.fst := by
  intro hmem
  rcases List.mem_map.mp hmem with ⟨kv, hkv, hk⟩
  have hf := (List.mem_filter.mp hkv).2
  simp [hk] at hf

theorem mem_keys_of_mem_visible (k : String) (fs : List (String × JVal))
    (h : k ∈ (visibleFields fs).map Prod.fst) : k ∈ fs.map Prod.fst := by
  simp only [visibleFields, List.mem_map] at h ⊢
  rcases h with ⟨kv, hkv, hk⟩
  exact ⟨kv, (List.mem_filter.mp hkv).1, hk⟩

/-- Overriding a key that occurs at most once with undefined and then
dropping undefined-valued fields is the same as removing the key from
the visible fields. -/
theorem visibleFields_setField_undefined (fs : List (String × JVal)) (k : String)
    (hk : (fs.map Prod.fst).count k ≤ 1) :
    visibleFields (setField fs k .undefined) = dropKey k (visibleFields fs) := by
  induction fs with
  | nil => simp [setField, visibleFields, dropKey, isUndefined]
  | cons kv rest ih =>
    obtain ⟨k0, v0⟩ := kv
    by_cases hk0 : k0 = k
    · subst hk0
      simp only [List.map_cons, List.count_cons_self] at hk
      have hrest : k0 ∉ rest.map Prod.fst := by
        intro hmem
        have := List.count_pos_iff.mpr hmem
        omega
      have hvis : k0 ∉ (visibleFields rest).map Prod.fst :=
        fun hmem => hrest (mem_keys_of_mem_visible _ _ hmem)
      rw [show setField ((k0, v0) :: rest) k0 .undefined = (k0, .undefined) :: rest by
        simp [setField]]
      rw [visibleFields_cons_undefined _ _ (by simp [isUndefined])]
      by_cases hv0 : isUndefined v0 = true
      · rw [visibleFields_cons_undefined _ _ hv0]
        exact (dropKey_eq_self_of_not_mem _ _ hvis).symm
      · rw [visibleFields_cons_def _ _ (by simp at hv0 ⊢; exact hv0)]
        rw [dropKey_cons_eq k0 (k0, v0) (visibleFields rest) rfl]
        exact (dropKey_eq_self_of_not_mem _ _ hvis).symm
    · have hcnt : (rest.map Prod.fst).count k ≤ 1 := by
        simp only [List.map_cons] at hk
        rw [List.count_cons] at hk
        omega
      rw [show setField ((k0, v0) :: rest) k .undefined = (k0, v0) :: setField rest k .undefined by
        simp [setField, hk0]]
      by_cases hv0 : isUndefined v0 = true
      · rw [visibleFields_cons_undefined _ _ hv0, visibleFields_cons_undefined _ _ hv0]
        exact ih hcnt
      · have hv0f : isUndefined v0 = false := by simp at hv0 ⊢; exact hv0
        rw [visibleFields_cons_def _ _ hv0f, visibleFields_cons_def _ _ hv0f]
        rw [dropKey_cons_ne _ _ _ hk0]
        rw [ih hcnt]

theorem dedupKeysAux_nodup (fs : List (String × JVal)) : ∀ seen : List String,
    ((dedupKeysAux seen fs).map Prod.fst).Nodup
    ∧ ∀ k ∈ seen, k ∉ (dedupKeysAux seen fs).map Prod.fst := by
  induction fs with
  | nil => intro seen; simp [dedupKeysAux]
  | cons kv rest ih =>
    intro seen
    obtain ⟨k, v⟩ := kv
    by_cases hs : k ∈ seen
    · simp only [dedupKeysAux, if_pos hs]
      exact ih seen
    · simp only [dedupKeysAux, if_neg hs, List.map_cons, List.nodup_cons]
      refine ⟨⟨(ih (k :: seen)).2 k (by simp), (ih (k :: seen)).1⟩, ?_⟩
      intro k0 hk0
      simp only [List.mem_cons, not_or]
      constructor
      · intro he
        exact hs (he ▸ hk0)
      · exact (ih (k :: seen)).2 k0 (by simp [hk0])

/-- The spread of any JavaScript value mentions the s3_url key at most
once: object spread enumerates unique keys, and the index keys of array
and string spread are digit strings. -/
theorem spreadFields_count_le_one (c : JVal) :
    ((spreadFields c).map Prod.fst).count "s3_url" ≤ 1 := by
  cases c with
  | obj fs =>
    have h := (dedupKeysAux_nodup fs []).1
    exact List.nodup_iff_count_le_one.mp h "s3_url"
  | arr xs =>
    have h : "s3_url" ∉ (spreadFields (.arr xs)).map Prod.fst := by
      simp only [spreadFields, List.map_map, List.mem_map]
      rintro ⟨p, _, hp⟩
      exact natKey_ne_s3url p.1 hp
    simp [List.count_eq_zero_of_not_mem h]
  | str s =>
    have h : "s3_url" ∉ (spreadFields (.str s)).map Prod.fst := by
      simp only [spreadFields, List.map_map, List.mem_map]
      rintro ⟨p, _, hp⟩
      exact natKey_ne_s3url p.1 hp
    simp [List.count_eq_zero_of_not_mem h]
  | undefined => simp [spreadFields]
  | null => simp [spreadFields]
  | bool b => simp [spreadFields]
  | num q => simp [spreadFields]

/-- The visible fields of a sanitized clip are exactly the visible
fields of the spread clip with the s3_url key removed. -/
theorem sanitizeClip_visible (c : JVal) :
    visibleFieldsOf (sanitizeClip c) = dropKey "s3_url" (visibleFields (spreadFields c)) := by
  unfold sanitizeClip visibleFieldsOf
  exact visibleFields_setField_undefined _ _ (spreadFields_count_le_one c)

/-- No sanitized clip exposes the s3_url key in its serialized form. -/
theorem sanitizeClip_no_s3url (c : JVal) :
    "s3_url" ∉ (visibleFieldsOf (sanitizeClip c)).map Prod.fst := by
  rw [sanitizeClip_visible]
  exact not_mem_dropKey _ _

/- Claim theorems. -/

/-- C1 counterexample: on the batch [goodClip, badClip] the submission
succeeds, but the clip lacking start_time is present in the normalized
clip list — it is not excluded, refuting the lenient per-item policy. -/
theorem clip_missing_start_time_kept_cex :
    ∃ xs, (handleSubmit idParse (.resolve true (.ok (.obj [("video_id", .str "v1"),
        ("clips", .arr [goodClip, badClip])]))) initialHomeState).clips = .arr xs
      ∧ badClip ∈ xs
      ∧ sessionStatus (handleSubmit idParse (.resolve true (.ok (.obj [("video_id", .str "v1"),
          ("clips", .arr [goodClip, badClip])]))) initialHomeState) = .Succeeded :=
  ⟨[goodClip, badClip], rfl, by simp, rfl⟩

/-- C1 amended: handleSubmit performs no per-item validation at all:
whatever array of raw clips the decoded payload carries — including
clips lacking start_time — is stored verbatim as the normalized clip
list, and the submission succeeds. -/
theorem clips_passed_through_unfiltered (parse : JVal → Except JsThrown JVal)
    (vid : JVal) (cl : List JVal) (s0 : HomeState) :
    (handleSubmit parse (.resolve true (.ok (.obj [("video_id", vid),
        ("clips", .arr cl)]))) s0).clips = .arr cl
    ∧ sessionStatus (handleSubmit parse (.resolve true (.ok (.obj [("video_id", vid),
        ("clips", .arr cl)]))) s0) = .Succeeded :=
  ⟨rfl, rfl⟩

/-- C2: evaluating handleSubmit at the failing input — a decoded
response object without a clips field — shows the code throwing a
TypeError at data.clips.map: clips defaults to the empty array and
video_id is extracted, but the session ends Failed with the TypeError
message, not Succeeded as the claim states. -/
theorem missing_clips_field_fails_submission :
    sessionStatus (handleSubmit idParse (.resolve true (.ok (.obj [("video_id", .str "v1")])))
      initialHomeState) = .Failed
    ∧ (handleSubmit idParse (.resolve true (.ok (.obj [("video_id", .str "v1")])))
        initialHomeState).error = "Cannot read properties of undefined (reading map)"
    ∧ (handleSubmit idParse (.resolve true (.ok (.obj [("video_id", .str "v1")])))
        initialHomeState).clips = .arr []
    ∧ (handleSubmit idParse (.resolve true (.ok (.obj [("video_id", .str "v1")])))
        initialHomeState).videoId = .str "v1" :=
  ⟨rfl, rfl, rfl, rfl⟩

/-- C5: while a submission is in flight (isLoading, the Pending status),
a submit gesture is a no-op: the state is unchanged and no network call
is issued, so at most one request is outstanding per controller. -/
theorem submit_while_pending_noop (parse : JVal → Except JsThrown JVal)
    (outcome : FetchOutcome) (url : String) (s : HomeState)
    (h : s.isLoading = true) :
    submitEvent parse outcome url s = (s, 0) := by
  simp [submitEvent, submitButtonDisabled, h]

theorem submit_while_pending_noop_witness :
    submitEvent idParse (.reject ⟨true, "network down"⟩) "https://www.youtube.com/watch?v=a"
      { initialHomeState with isLoading := true }
    = ({ initialHomeState with isLoading := true }, 0) :=
  submit_while_pending_noop _ _ _ _ rfl

/-- C6: an input rejected by the allow-listed video-URL pattern never
reaches the network: the submit button is disabled, so the submit event
leaves the state unchanged and issues zero network calls; when the
input is non-empty the inline InvalidInput message is rendered. -/
theorem invalid_url_no_network_call (parse : JVal → Except JsThrown JVal)
    (outcome : FetchOutcome) (url : String) (s : HomeState)
    (h : isValidYoutubeUrl url = false) :
    submitEvent parse outcome url s = (s, 0)
    ∧ (url ≠ "" → showsInvalidUrlMessage url = true) := by
  constructor
  · simp [submitEvent, submitButtonDisabled, h]
  · intro hu
    simp [showsInvalidUrlMessage, truthy, h, hu]

theorem invalid_url_no_network_call_witness :
    submitEvent idParse (.reject ⟨true, "network down"⟩) "not a url" initialHomeState
      = (initialHomeState, 0)
    ∧ ("not a url" ≠ "" → showsInvalidUrlMessage "not a url" = true) :=
  invalid_url_no_network_call idParse (.reject ⟨true, "network down"⟩) "not a url"
    initialHomeState rfl

/-- C8 counterexample: when the clipboard write fails, copyUrl still
flips the copied flag from false to true — the interaction state does
not stay unchanged on clipboard failure, because the writeText promise
is neither awaited nor given a rejection handler. -/
theorem copy_failure_sets_flag_cex :
    (copyUrl (.failure ⟨true, "clipboard denied"⟩) initialCardState).1.copied = true
    ∧ initialCardState.copied = false :=
  ⟨rfl, rfl⟩

/-- C8 amended: copyUrl sets the copied flag to true unconditionally —
for every clipboard outcome, success or failure — schedules the reset
timer at the fixed 2000 ms delay whose callback returns the flag to
false, and leaves the other per-clip flags untouched. -/
theorem copy_sets_flag_unconditionally (o : ClipboardOutcome) (s : CardState) :
    copyUrl o s = ({ s with copied := true }, 2000)
    ∧ copyTimerFire (copyUrl o s).1 = { s with copied := false }
    ∧ (copyUrl o s).1.liked = s.liked
    ∧ (copyUrl o s).1.loading = s.loading
    ∧ (copyUrl o s).1.showPreview = s.showPreview :=
  ⟨rfl, rfl, rfl, rfl, rfl⟩

/-- C9: for every outcome of the fetch-and-save steps, handleDownload
raises the loading flag while in flight and the finally path always
returns it to false, leaving the liked, copied and preview flags of the
clip unchanged. -/
theorem download_resets_loading (s3url : String) (o : DownloadOutcome) (s : CardState) :
    (handleDownload s3url o s).1.loading = true
    ∧ (handleDownload s3url o s).2.1.loading = false
    ∧ (handleDownload s3url o s).2.1.copied = s.copied
    ∧ (handleDownload s3url o s).2.1.liked = s.liked
    ∧ (handleDownload s3url o s).2.1.showPreview = s.showPreview :=
  ⟨rfl, rfl, rfl, rfl, rfl⟩

/-- C3: the envelope unwrap is idempotent: for a payload of shape
(video_id, clips), submitting the payload directly and submitting it
wrapped as an object whose body field is its JSON serialization produce
identical states, given that the platform parse inverts the
serialization at this payload and the serialization is non-empty (JSON
serialization of an object always is). -/
theorem normalizer_unwrap_idempotent (parse : JVal → Except JsThrown JVal)
    (stringify : JVal → String) (v c p : JVal) (s0 : HomeState)
    (hp : p = .obj [("video_id", v), ("clips", c)])
    (h1 : stringify p ≠ "")
    (h2 : parse (.str (stringify p)) = .ok p) :
    handleSubmit parse (.resolve true (.ok (.obj [("body", .str (stringify p))]))) s0
    = handleSubmit parse (.resolve true (.ok p)) s0 := by
  subst hp
  simp [handleSubmit, submitBody, getProp, lookupField, truthy, h1, h2]

theorem normalizer_unwrap_idempotent_witness :
    handleSubmit (fun _ => .ok (.obj [("video_id", .str "v1"), ("clips", .arr [])]))
      (.resolve true (.ok (.obj [("body", .str "x")]))) initialHomeState
    = handleSubmit (fun _ => .ok (.obj [("video_id", .str "v1"), ("clips", .arr [])]))
      (.resolve true (.ok (.obj [("video_id", .str "v1"), ("clips", .arr [])]))) initialHomeState :=
  normalizer_unwrap_idempotent
    (fun _ => .ok (.obj [("video_id", .str "v1"), ("clips", .arr [])]))
    (fun _ => "x") (.str "v1") (.arr [])
    (.obj [("video_id", .str "v1"), ("clips", .arr [])])
    initialHomeState rfl (by decide) rfl

/-- C4 counterexample: a malformed payload whose clips field is the
truthy non-array value "oops" makes the submission fail, but the clips
state holds that raw value, not the empty list — the clip list does not
remain empty on every processing error. -/
theorem failed_submit_nonempty_clips_cex :
    sessionStatus (handleSubmit idParse (.resolve true (.ok (.obj [("video_id", .str "v1"),
      ("clips", .str "oops")]))) initialHomeState) = .Failed
    ∧ (handleSubmit idParse (.resolve true (.ok (.obj [("video_id", .str "v1"),
        ("clips", .str "oops")]))) initialHomeState).clips = .str "oops"
    ∧ JVal.str "oops" ≠ .arr [] :=
  ⟨rfl, rfl, by simp⟩

/-- C4 amended: every error thrown during the network call or response
processing is captured: the session ends Failed with a non-empty
errorMessage (the environment throwing only well-formed Errors), no
exception escapes the boundary (handleSubmit is total), and the clips
state is empty except when the decoded clips field was a truthy
non-array value, which is then stored as-is when the map call throws. -/
theorem submit_failure_captured (parse : JVal → Except JsThrown JVal)
    (outcome : FetchOutcome) (s0 : HomeState) (e : JsThrown)
    (henv : envOk parse outcome)
    (h : (submitBody parse outcome (startSubmit s0)).2 = some e) :
    sessionStatus (handleSubmit parse outcome s0) = .Failed
    ∧ (handleSubmit parse outcome s0).error ≠ ""
    ∧ ((handleSubmit parse outcome s0).clips = .arr []
       ∨ (truthy (handleSubmit parse outcome s0).clips = true
          ∧ ∀ xs, (handleSubmit parse outcome s0).clips ≠ .arr xs)) := by
  rcases hsb : submitBody parse outcome (startSubmit s0) with ⟨s2, o⟩
  rw [hsb] at h
  simp only at h
  subst h
  have hok := submitBody_error_thrownOk parse outcome (startSubmit s0) s2 e hsb
    henv.1 henv.2.1 henv.2.2
  have hmsg : errMessage e ≠ "" := by
    unfold errMessage
    split
    · exact hok (by assumption)
    · decide
  have hst := submitBody_error_state parse outcome (startSubmit s0) s2 e hsb
  have hh : handleSubmit parse outcome s0
      = { s2 with error := errMessage e, isLoading := false } := by
    unfold handleSubmit
    rw [hsb]
  rw [hh]
  refine ⟨?_, hmsg, ?_⟩
  · simp [sessionStatus, hmsg]
  · rcases hst.2.2.2 with hc | hc | ⟨hc1, hc2⟩
    · exact Or.inl hc
    · exact Or.inl hc
    · exact Or.inr ⟨hc1, hc2⟩

theorem submit_failure_captured_witness :
    sessionStatus (handleSubmit idParse (.reject ⟨true, "network down"⟩) initialHomeState) = .Failed
    ∧ (handleSubmit idParse (.reject ⟨true, "network down"⟩) initialHomeState).error ≠ ""
    ∧ ((handleSubmit idParse (.reject ⟨true, "network down"⟩) initialHomeState).clips = .arr []
       ∨ (truthy (handleSubmit idParse (.reject ⟨true, "network down"⟩) initialHomeState).clips = true
          ∧ ∀ xs, (handleSubmit idParse (.reject ⟨true, "network down"⟩) initialHomeState).clips ≠ .arr xs)) :=
  submit_failure_captured idParse (.reject ⟨true, "network down"⟩) initialHomeState
    ⟨true, "network down"⟩
    (by unfold envOk
        refine ⟨fun e he => ?_, fun ok e he => ?_, fun v e he => ?_⟩
        · cases he
          intro _
          decide
        · cases he
        · cases he)
    rfl

/-- C7: on every successful submission the published debug data is
exactly the normalized clip list mapped through the sanitizer, every
sanitized clip hides the s3_url key from its serialized fields, and the
serialized fields equal those of the clip with the s3_url field
removed. -/
theorem debug_data_excludes_s3_url (parse : JVal → Except JsThrown JVal)
    (outcome : FetchOutcome) (s0 : HomeState)
    (h : (submitBody parse outcome (startSubmit s0)).2 = none) :
    ∃ xs, (handleSubmit parse outcome s0).clips = .arr xs
      ∧ (handleSubmit parse outcome s0).debugData = some (.arr (xs.map sanitizeClip))
      ∧ (∀ c ∈ xs, "s3_url" ∉ (visibleFieldsOf (sanitizeClip c)).map Prod.fst)
      ∧ (∀ c ∈ xs, visibleFieldsOf (sanitizeClip c)
          = dropKey "s3_url" (visibleFields (spreadFields c))) := by
  rcases hsb : submitBody parse outcome (startSubmit s0) with ⟨s2, o⟩
  rw [hsb] at h
  simp only at h
  subst h
  rcases submitBody_success_spec parse outcome (startSubmit s0) s2 hsb with ⟨xs, hc, hdd⟩
  have hh : handleSubmit parse outcome s0 = { s2 with isLoading := false } := by
    unfold handleSubmit
    rw [hsb]
  rw [hh]
  exact ⟨xs, hc, hdd, fun c _ => sanitizeClip_no_s3url c, fun c _ => sanitizeClip_visible c⟩

theorem debug_data_excludes_s3_url_witness :
    ∃ xs, (handleSubmit idParse (.resolve true (.ok (.obj [("video_id", .str "v1"),
        ("clips", .arr [goodClip])]))) initialHomeState).clips = .arr xs
      ∧ (handleSubmit idParse (.resolve true (.ok (.obj [("video_id", .str "v1"),
          ("clips", .arr [goodClip])]))) initialHomeState).debugData
        = some (.arr (xs.map sanitizeClip))
      ∧ (∀ c ∈ xs, "s3_url" ∉ (visibleFieldsOf (sanitizeClip c)).map Prod.fst)
      ∧ (∀ c ∈ xs, visibleFieldsOf (sanitizeClip c)
          = dropKey "s3_url" (visibleFields (spreadFields c))) :=
  debug_data_excludes_s3_url idParse (.resolve true (.ok (.obj [("video_id", .str "v1"),
    ("clips", .arr [goodClip])]))) initialHomeState rfl

/-- C10: starting a new submission clears clips, errorMessage and
videoId and raises isLoading, but leaves the previously published debug
data in place; and when the new submission fails, the final state still
exposes the previous sanitized debug data. -/
theorem resubmit_preserves_debug_data (parse : JVal → Except JsThrown JVal)
    (outcome : FetchOutcome) (s0 : HomeState) (d : JVal)
    (hd : s0.debugData = some d) :
    (startSubmit s0).debugData = some d
    ∧ (startSubmit s0).clips = .arr []
    ∧ (startSubmit s0).error = ""
    ∧ (startSubmit s0).videoId = .str ""
    ∧ (startSubmit s0).isLoading = true
    ∧ (∀ e, (submitBody parse outcome (startSubmit s0)).2 = some e →
        (handleSubmit parse outcome s0).debugData = some d) := by
  refine ⟨hd, rfl, rfl, rfl, rfl, ?_⟩
  intro e h
  rcases hsb : submitBody parse outcome (startSubmit s0) with ⟨s2, o⟩
  rw [hsb] at h
  simp only at h
  subst h
  have hst := submitBody_error_state parse outcome (startSubmit s0) s2 e hsb
  have hh : handleSubmit parse outcome s0
      = { s2 with error := errMessage e, isLoading := false } := by
    unfold handleSubmit
    rw [hsb]
  rw [hh]
  exact hst.1.trans hd

theorem resubmit_preserves_debug_data_witness :
    (startSubmit { initialHomeState with debugData := some (.arr []) }).debugData = some (.arr [])
    ∧ (startSubmit { initialHomeState with debugData := some (.arr []) }).clips = .arr []
    ∧ (startSubmit { initialHomeState with debugData := some (.arr []) }).error = ""
    ∧ (startSubmit { initialHomeState with debugData := some (.arr []) }).videoId = .str ""
    ∧ (startSubmit { initialHomeState with debugData := some (.arr []) }).isLoading = true
    ∧ (∀ e, (submitBody idParse (.reject ⟨true, "network down"⟩)
          (startSubmit { initialHomeState with debugData := some (.arr []) })).2 = some e →
        (handleSubmit idParse (.reject ⟨true, "network down"⟩)
          { initialHomeState with debugData := some (.arr []) }).debugData = some (.arr [])) :=
  resubmit_preserves_debug_data idParse (.reject ⟨true, "network down"⟩)
    { initialHomeState with debugData := some (.arr []) } (.arr []) rfl

end Clipwise
